import Mathlib

/-!
Verification of the NGN/USD exchange-rate application (`src/app.py`).

The embedding models the fetch-and-normalize routine `get_exchange_rate`,
the web handler `index` for route `/`, the CLI printing function `main`,
and the script entry point guarded by the `__main__` check.  Python dicts
returned by `get_exchange_rate` are modelled as association lists of
string keys to values; Python floats are modelled as exact rationals
(the spec states rate identities up to float rounding, and the claims
are about exact value identities, so `ℚ` is the idealized carrier).
A Python exception escaping a presenter is modelled as `Option.none`.
-/

/-- A Python value stored in the result dict: a float (as `ℚ`) or a string. -/
inductive PyVal where
  | num (q : ℚ)
  | str (s : String)
deriving DecidableEq

/-- The dict returned by `get_exchange_rate`: an association list, in insertion order. -/
abbrev RateDict := List (String × PyVal)

/-- The parsed upstream JSON body together with the HTTP status code.
Fields that may be absent from the JSON object are `Option`s; reading an
absent field with `data[k]` raises `KeyError` while `data.get(k, d)`
yields the default, and the embedding follows that distinction. -/
structure ApiResponse where
  status_code : ℤ
  result : Option String
  rates : Option (List (String × ℚ))
  time_last_update_utc : Option String
  error_type : Option String
deriving DecidableEq

/-- The outcome of the `requests.get` call: either the transport raised a
`RequestException` with the given text, or a response arrived and parsed. -/
inductive FetchInput where
  | transportError (msg : String)
  | response (r : ApiResponse)
deriving DecidableEq

/-- `rs.get(key)` on the rates mapping: first binding wins, `none` if absent. -/
def lookupRate : List (String × ℚ) → String → Option ℚ
  | [], _ => none
  | (k, v) :: rest, key => if k = key then some v else lookupRate rest key

/-- `d[key]` / `key in d` support on the result dict. -/
def dictGet : RateDict → String → Option PyVal
  | [], _ => none
  | (k, v) :: rest, key => if k = key then some v else dictGet rest key

/-- Python `key in d`. -/
def hasKey (d : RateDict) (key : String) : Bool :=
  (dictGet d key).isSome

/-- Python `str()` on a stored value (only the string case is reachable
from the dicts `get_exchange_rate` builds). -/
def pyStr : PyVal → String
  | .str s => s
  | .num q => toString q

/-- Embedding of `get_exchange_rate` (src/app.py lines 11-39).  `now` is
the wall-clock string `datetime.now().strftime(...)` produced during the
call.  The Python truthiness test `if ngn_rate:` is false for `None` and
for the float `0.0`; reading a missing key of `data` raises `KeyError`,
whose `str()` is the quoted key name, caught by the final handler. -/
def get_exchange_rate (now : String) : FetchInput → RateDict
  | .transportError msg => [("error", .str ("Request failed: " ++ msg))]
  | .response r =>
    if r.status_code = 200 then
      match r.result with
      | none => [("error", .str "An unexpected error occurred: \x27result\x27")]
      | some res =>
        if res = "success" then
          match r.rates with
          | none => [("error", .str "An unexpected error occurred: \x27rates\x27")]
          | some rs =>
            match lookupRate rs "NGN" with
            | some ngn_rate =>
              if ngn_rate ≠ 0 then
                match r.time_last_update_utc with
                | none =>
                    [("error", .str "An unexpected error occurred: \x27time_last_update_utc\x27")]
                | some t =>
                    [("ngn_to_usd", .num (1 / ngn_rate)),
                     ("usd_to_ngn", .num ngn_rate),
                     ("last_updated", .str t),
                     ("current_time", .str now)]
              else [("error", .str "NGN rate not found in the response")]
            | none => [("error", .str "NGN rate not found in the response")]
        else [("error", .str ("API Error: " ++ r.error_type.getD "Unknown error"))]
    else [("error", .str ("API Error: " ++ r.error_type.getD "Unknown error"))]

/-- The success-variant dict shape, in the literal key order of the source. -/
def successDict (ngn_to_usd usd_to_ngn : ℚ) (last_updated current_time : String) : RateDict :=
  [("ngn_to_usd", .num ngn_to_usd),
   ("usd_to_ngn", .num usd_to_ngn),
   ("last_updated", .str last_updated),
   ("current_time", .str current_time)]

/-- The keys of a result dict, in order. -/
def dictKeys (d : RateDict) : List String :=
  d.map Prod.fst

/-- Round a rational to the nearest integer, ties to even, as the C-style
`%f` formatting of a binary float does on its exact value. -/
def roundHalfEven (q : ℚ) : ℤ :=
  let n : ℤ := ⌊q⌋
  if q - n < 1 / 2 then n
  else if q - n > 1 / 2 then n + 1
  else if n % 2 = 0 then n else n + 1

/-- Left-pad a digit string with zeros to the given length. -/
def padZeros (s : String) (len : Nat) : String :=
  String.mk (List.replicate (len - s.length) '0') ++ s

/-- Fixed-point decimal rendering with `prec` fractional digits, the
idealized-on-`ℚ` counterpart of Python `format(x, ".6f")` / `"%.2f"`. -/
def formatFixed (q : ℚ) (prec : Nat) : String :=
  let scaled : ℤ := roundHalfEven (|q| * (10 : ℚ) ^ prec)
  let ip : ℤ := scaled / (10 : ℤ) ^ prec
  let fp : ℤ := scaled % (10 : ℤ) ^ prec
  let sign : String := if q < 0 then "-" else ""
  if prec = 0 then sign ++ toString ip
  else sign ++ toString ip ++ "." ++ padZeros (toString fp) prec

/-- The rendered page of the template `HTML_TEMPLATE`: either the error
block, or the two formatted rate lines plus the two timestamp lines. -/
inductive Page where
  | errorPage (msg : String)
  | ratesPage (rateLine1 rateLine2 lastUpdated currentTime : String)
deriving DecidableEq

/-- Embedding of the web handler `index` for route `/` (src/app.py lines
71-83), applied to the dict returned by `get_exchange_rate`.  Returning a
string from a Flask handler yields HTTP transport status 200; `none`
models an exception escaping the handler (never reached on the dicts the
fetch produces).  The template formats `ngn_to_usd` to 6 and `usd_to_ngn`
to 2 decimal places. -/
def index (result : RateDict) : Option (ℤ × Page) :=
  if hasKey result "error" then
    match dictGet result "error" with
    | some v => some (200, .errorPage (pyStr v))
    | none => none
  else
    match dictGet result "ngn_to_usd", dictGet result "usd_to_ngn",
          dictGet result "last_updated", dictGet result "current_time" with
    | some (.num a), some (.num b), some (.str lu), some (.str ct) =>
        some (200, .ratesPage
          ("1 NGN = " ++ formatFixed a 6 ++ " USD")
          ("1 USD = " ++ formatFixed b 2 ++ " NGN") lu ct)
    | _, _, _, _ => none

namespace Cli

/-- Embedding of the CLI function `main` (src/app.py lines 85-98), applied
to the dict returned by `get_exchange_rate`: the list of lines printed to
standard output, or `none` for an escaping exception (never reached). -/
def main (result : RateDict) : Option (List String) :=
  if hasKey result "error" then
    match dictGet result "error" with
    | some v =>
        some ["Fetching current NGN to USD exchange rate...\n",
              "Error: " ++ pyStr v]
    | none => none
  else
    match dictGet result "ngn_to_usd", dictGet result "usd_to_ngn",
          dictGet result "last_updated", dictGet result "current_time" with
    | some (.num a), some (.num b), some (.str lu), some (.str ct) =>
        some ["Fetching current NGN to USD exchange rate...\n",
              "Current Exchange Rates:",
              "1 NGN = " ++ formatFixed a 6 ++ " USD",
              "1 USD = " ++ formatFixed b 2 ++ " NGN",
              "\nLast Updated: " ++ lu,
              "Current Time: " ++ ct]
    | _, _, _, _ => none

end Cli

/-- One step performed at module scope when the script is executed. -/
inductive EntryStep where
  | printLine (s : String)
  | runServer (host : String) (port : Nat) (debugOn : Bool)
  | callFetchAndPrint
deriving DecidableEq

/-- Embedding of the guarded entry block (src/app.py lines 100-103): what
running `app.py` as a script actually does, in order.  It prints a startup
line and starts the Flask web server; it does not invoke `main` or
`get_exchange_rate`. -/
def mainEntry : List EntryStep :=
  [.printLine "Starting web server. Access the exchange rate at http://127.0.0.1:5000/",
   .runServer "0.0.0.0" 5000 true]

/-- The URL rules registered on the Flask app object in src/app.py: the
only route decorator present is for the root path. -/
def routes : List String := ["/"]

/-! ## Helper lemmas -/

/-- Exhaustive classification of the dict `get_exchange_rate` returns:
either the four-field success dict built from a nonzero NGN rate, or a
single-key error dict whose message belongs to one of the four error
classes of the source. -/
theorem get_exchange_rate_cases (now : String) (input : FetchInput) :
    (∃ rate lu, rate ≠ 0 ∧
        get_exchange_rate now input = successDict (1 / rate) rate lu now) ∨
    (∃ m, get_exchange_rate now input = [("error", PyVal.str m)] ∧
        ((∃ s, m = "Request failed: " ++ s) ∨
         (∃ s, m = "API Error: " ++ s) ∨
          m = "NGN rate not found in the response" ∨
         (∃ s, m = "An unexpected error occurred: " ++ s))) := by
  cases input with
  | transportError msg =>
      exact Or.inr ⟨_, rfl, Or.inl ⟨msg, rfl⟩⟩
  | response r =>
      by_cases hsc : r.status_code = 200
      · cases hres : r.result with
        | none =>
            have heq : get_exchange_rate now (.response r) =
                [("error", PyVal.str "An unexpected error occurred: \x27result\x27")] := by
              simp [get_exchange_rate, hsc, hres]
            exact Or.inr ⟨_, heq, Or.inr (Or.inr (Or.inr ⟨"\x27result\x27", rfl⟩))⟩
        | some res =>
            by_cases hsucc : res = "success"
            · cases hrs : r.rates with
              | none =>
                  have heq : get_exchange_rate now (.response r) =
                      [("error", PyVal.str "An unexpected error occurred: \x27rates\x27")] := by
                    simp [get_exchange_rate, hsc, hres, hsucc, hrs]
                  exact Or.inr ⟨_, heq, Or.inr (Or.inr (Or.inr ⟨"\x27rates\x27", rfl⟩))⟩
              | some rs =>
                  cases hngn : lookupRate rs "NGN" with
                  | none =>
                      have heq : get_exchange_rate now (.response r) =
                          [("error", PyVal.str "NGN rate not found in the response")] := by
                        simp [get_exchange_rate, hsc, hres, hsucc, hrs, hngn]
                      exact Or.inr ⟨_, heq, Or.inr (Or.inr (Or.inl rfl))⟩
                  | some rate =>
                      by_cases hz : rate = 0
                      · have heq : get_exchange_rate now (.response r) =
                            [("error", PyVal.str "NGN rate not found in the response")] := by
                          simp [get_exchange_rate, hsc, hres, hsucc, hrs, hngn, hz]
                        exact Or.inr ⟨_, heq, Or.inr (Or.inr (Or.inl rfl))⟩
                      · cases ht : r.time_last_update_utc with
                        | none =>
                            have heq : get_exchange_rate now (.response r) =
                                [("error",
                                  PyVal.str "An unexpected error occurred: \x27time_last_update_utc\x27")] := by
                              simp [get_exchange_rate, hsc, hres, hsucc, hrs, hngn, hz, ht]
                            exact Or.inr ⟨_, heq,
                              Or.inr (Or.inr (Or.inr ⟨"\x27time_last_update_utc\x27", rfl⟩))⟩
                        | some t =>
                            refine Or.inl ⟨rate, t, hz, ?_⟩
                            simp [get_exchange_rate, hsc, hres, hsucc, hrs, hngn, hz, ht, successDict]
            · have heq : get_exchange_rate now (.response r) =
                  [("error", PyVal.str ("API Error: " ++ r.error_type.getD "Unknown error"))] := by
                simp [get_exchange_rate, hsc, hres, hsucc]
              exact Or.inr ⟨_, heq, Or.inr (Or.inl ⟨_, rfl⟩)⟩
      · have heq : get_exchange_rate now (.response r) =
            [("error", PyVal.str ("API Error: " ++ r.error_type.getD "Unknown error"))] := by
          simp [get_exchange_rate, hsc]
        exact Or.inr ⟨_, heq, Or.inr (Or.inl ⟨_, rfl⟩)⟩

/-- The web handler on a single-key error dict: HTTP 200 and the error block. -/
theorem index_errorDict (m : String) :
    index [("error", PyVal.str m)] = some (200, Page.errorPage m) := by
  simp [index, hasKey, dictGet, pyStr]

/-- The web handler on the success dict: HTTP 200 and the formatted rate lines. -/
theorem index_successDict (a b : ℚ) (lu ct : String) :
    index (successDict a b lu ct) =
      some (200, Page.ratesPage
        ("1 NGN = " ++ formatFixed a 6 ++ " USD")
        ("1 USD = " ++ formatFixed b 2 ++ " NGN") lu ct) := by
  simp [index, successDict, hasKey, dictGet]

/-- The success dict carries no `error` key. -/
theorem hasKey_successDict_error (a b : ℚ) (lu ct : String) :
    hasKey (successDict a b lu ct) "error" = false := by
  simp [hasKey, successDict, dictGet]

/-! ## Claim theorems -/

/-- Claim C1: the spec and the repository tests expect a liveness handler
for GET /health returning 200 with body OK, but the route table of
src/app.py registers only the root path, so no such handler exists.  This
theorem evaluates the route table at the failing input. -/
theorem C1_health_route_absent : "/health" ∉ routes := by decide

/-- Claim C2, counterexample: the guarded entry block of src/app.py does
not call the fetch-and-print routine at all; it starts the Flask web
server, so running the script does not print the fetch result and exit. -/
theorem C2_entry_point_counterexample :
    EntryStep.callFetchAndPrint ∉ mainEntry ∧
    EntryStep.runServer "0.0.0.0" 5000 true ∈ mainEntry := by
  decide

/-- Claim C2, amended: running the script prints a startup line and starts
the Flask web server on 0.0.0.0:5000 with debug on, without calling the
fetch; the function named main, which the entry block never invokes,
prints the Error line on a failure dict and the two formatted rate lines
plus the two timestamps on a success dict. -/
theorem C2_entry_point_amended :
    mainEntry =
      [EntryStep.printLine
        "Starting web server. Access the exchange rate at http://127.0.0.1:5000/",
       EntryStep.runServer "0.0.0.0" 5000 true] ∧
    (∀ m, Cli.main [("error", PyVal.str m)] =
        some ["Fetching current NGN to USD exchange rate...\n",
              "Error: " ++ m]) ∧
    (∀ a b lu ct, Cli.main (successDict a b lu ct) =
        some ["Fetching current NGN to USD exchange rate...\n",
              "Current Exchange Rates:",
              "1 NGN = " ++ formatFixed a 6 ++ " USD",
              "1 USD = " ++ formatFixed b 2 ++ " NGN",
              "\nLast Updated: " ++ lu,
              "Current Time: " ++ ct]) :=
  ⟨rfl,
   fun m => by simp [Cli.main, hasKey, dictGet, pyStr],
   fun a b lu ct => by simp [Cli.main, successDict, hasKey, dictGet]⟩

/-- Claim C3, counterexample: on an otherwise successful response whose
rates map NGN to exactly 0, the fetch returns the missing-rate failure
dict — the Python truthiness test treats the rate 0.0 like an absent key,
so the division is never reached and no rate field is produced. -/
theorem C3_zero_rate_counterexample :
    get_exchange_rate "2025-01-01 00:00:00"
        (.response ⟨200, some "success", some [("NGN", 0)],
          some "Thu, 01 Jan 2025 00:00:00 +0000", none⟩) =
      [("error", PyVal.str "NGN rate not found in the response")] ∧
    hasKey
      (get_exchange_rate "2025-01-01 00:00:00"
        (.response ⟨200, some "success", some [("NGN", 0)],
          some "Thu, 01 Jan 2025 00:00:00 +0000", none⟩)) "ngn_to_usd" = false := by
  decide

/-- Claim C3, amended: when the upstream response is otherwise successful
and its rates mapping contains NGN with value exactly 0, the truthiness
guard on the rate short-circuits before the division, and the fetch
returns the Failure variant with the missing-rate message. -/
theorem C3_zero_rate_amended (now : String) (r : ApiResponse)
    (rs : List (String × ℚ))
    (hsc : r.status_code = 200) (hres : r.result = some "success")
    (hrs : r.rates = some rs) (hngn : lookupRate rs "NGN" = some 0) :
    get_exchange_rate now (.response r) =
      [("error", PyVal.str "NGN rate not found in the response")] := by
  simp [get_exchange_rate, hsc, hres, hrs, hngn]

/-- Claim C3 amended, witness at a concrete zero-rate response. -/
theorem C3_zero_rate_amended_witness :
    get_exchange_rate "T"
        (.response ⟨200, some "success", some [("NGN", 0)], some "U", none⟩) =
      [("error", PyVal.str "NGN rate not found in the response")] :=
  C3_zero_rate_amended "T" _ [("NGN", 0)] rfl rfl rfl (by simp [lookupRate])

/-- Claim C4: for every upstream response with HTTP status 200, result
field success, and a rates mapping binding NGN to a rate greater than 0,
the fetch returns the success dict with ngn_to_usd the reciprocal of the
rate, usd_to_ngn the rate unchanged, last_updated copied verbatim from
the time_last_update_utc field, and current_time the wall-clock string. -/
theorem C4_success_fields (now : String) (r : ApiResponse)
    (rs : List (String × ℚ)) (rate : ℚ) (t : String)
    (hsc : r.status_code = 200) (hres : r.result = some "success")
    (hrs : r.rates = some rs) (hngn : lookupRate rs "NGN" = some rate)
    (hpos : 0 < rate) (ht : r.time_last_update_utc = some t) :
    get_exchange_rate now (.response r) = successDict (1 / rate) rate t now := by
  simp [get_exchange_rate, hsc, hres, hrs, hngn, hpos.ne', ht, successDict]

/-- Claim C4, witness: NGN rate 1000 yields ngn_to_usd 1/1000 and
usd_to_ngn 1000, with the timestamps copied through. -/
theorem C4_success_fields_witness :
    get_exchange_rate "2026-01-02 12:30:00"
        (.response ⟨200, some "success", some [("NGN", 1000)],
          some "Fri, 02 Jan 2026 12:30:00 +0000", none⟩) =
      successDict (1 / 1000) 1000 "Fri, 02 Jan 2026 12:30:00 +0000"
        "2026-01-02 12:30:00" :=
  C4_success_fields _ _ _ _ _ rfl rfl rfl (by simp [lookupRate]) (by norm_num) rfl

/-- Claim C5: a 200/success response whose rates mapping has no NGN key
yields the Failure variant with exactly the missing-rate message. -/
theorem C5_missing_ngn (now : String) (r : ApiResponse)
    (rs : List (String × ℚ))
    (hsc : r.status_code = 200) (hres : r.result = some "success")
    (hrs : r.rates = some rs) (hngn : lookupRate rs "NGN" = none) :
    get_exchange_rate now (.response r) =
      [("error", PyVal.str "NGN rate not found in the response")] := by
  simp [get_exchange_rate, hsc, hres, hrs, hngn]

/-- Claim C5, witness: a rates mapping holding only EUR. -/
theorem C5_missing_ngn_witness :
    get_exchange_rate "T"
        (.response ⟨200, some "success", some [("EUR", 9 / 10)], some "U", none⟩) =
      [("error", PyVal.str "NGN rate not found in the response")] :=
  C5_missing_ngn "T" _ [("EUR", 9 / 10)] rfl rfl rfl (by simp [lookupRate])

/-- Claim C6: a parsed response whose declared result field is present but
not success, or whose HTTP status is not 200, yields the Failure variant
whose message is the API Error prefix followed by the error-type field,
defaulting to Unknown error when that field is absent. -/
theorem C6_api_error (now : String) (r : ApiResponse)
    (h : (∃ res, r.result = some res ∧ res ≠ "success") ∨ r.status_code ≠ 200) :
    get_exchange_rate now (.response r) =
      [("error", PyVal.str ("API Error: " ++ r.error_type.getD "Unknown error"))] := by
  rcases h with ⟨res, hres, hne⟩ | hsc
  · by_cases hsc : r.status_code = 200
    · simp [get_exchange_rate, hsc, hres, hne]
    · simp [get_exchange_rate, hsc]
  · simp [get_exchange_rate, hsc]

/-- Claim C6, witness: HTTP 403 with error-type forbidden yields exactly
the message API Error: forbidden. -/
theorem C6_api_error_witness :
    get_exchange_rate "T"
        (.response ⟨403, some "error", none, none, some "forbidden"⟩) =
      [("error", PyVal.str "API Error: forbidden")] := by
  have h := C6_api_error "T" ⟨403, some "error", none, none, some "forbidden"⟩
    (Or.inr (by decide))
  simpa using h

/-- Claim C7: every transport failure yields the Failure variant whose
message is the Request failed prefix followed by the underlying error
text, e.g. Connection refused. -/
theorem C7_transport_failure (now msg : String) :
    get_exchange_rate now (.transportError msg) =
      [("error", PyVal.str ("Request failed: " ++ msg))] :=
  rfl

/-- Claim C8: the fetch is total at its boundary — every input produces a
dict, and that dict is either the success shape or a single-key error
dict whose message belongs to one of the four locally recovered error
classes (transport, upstream API, missing data, catch-all unexpected). -/
theorem C8_total_failure_classes (now : String) (input : FetchInput) :
    (∃ rate lu, get_exchange_rate now input = successDict (1 / rate) rate lu now) ∨
    (∃ m, get_exchange_rate now input = [("error", PyVal.str m)] ∧
        ((∃ s, m = "Request failed: " ++ s) ∨
         (∃ s, m = "API Error: " ++ s) ∨
          m = "NGN rate not found in the response" ∨
         (∃ s, m = "An unexpected error occurred: " ++ s))) := by
  rcases get_exchange_rate_cases now input with ⟨rate, lu, -, heq⟩ | ⟨m, heq, hclass⟩
  · exact Or.inl ⟨rate, lu, heq⟩
  · exact Or.inr ⟨m, heq, hclass⟩

/-- Claim C9: for every fetch outcome the web handler for the root route
answers with transport status 200; a failure shows up only as the error
block of the body, a success only as the formatted rate page. -/
theorem C9_index_always_200 (now : String) (input : FetchInput) :
    ∃ p, index (get_exchange_rate now input) = some (200, p) ∧
      ((∃ m, get_exchange_rate now input = [("error", PyVal.str m)] ∧
          p = Page.errorPage m) ∨
       (∃ rate lu, get_exchange_rate now input = successDict (1 / rate) rate lu now ∧
          p = Page.ratesPage
            ("1 NGN = " ++ formatFixed (1 / rate) 6 ++ " USD")
            ("1 USD = " ++ formatFixed rate 2 ++ " NGN") lu now)) := by
  rcases get_exchange_rate_cases now input with ⟨rate, lu, -, heq⟩ | ⟨m, heq, -⟩
  · refine ⟨_, ?_, Or.inr ⟨rate, lu, heq, rfl⟩⟩
    rw [heq, index_successDict]
  · refine ⟨_, ?_, Or.inl ⟨m, heq, rfl⟩⟩
    rw [heq, index_errorDict]

/-- Claim C10: every dict the fetch returns has exactly one of two
shapes — the single key error, or exactly the four success keys in order
with no error key — so membership of the error key classifies every
result correctly for both presenters. -/
theorem C10_result_shape (now : String) (input : FetchInput) :
    dictKeys (get_exchange_rate now input) = ["error"] ∨
    (dictKeys (get_exchange_rate now input) =
        ["ngn_to_usd", "usd_to_ngn", "last_updated", "current_time"] ∧
      hasKey (get_exchange_rate now input) "error" = false) := by
  rcases get_exchange_rate_cases now input with ⟨rate, lu, -, heq⟩ | ⟨m, heq, -⟩
  · rw [heq]
    exact Or.inr ⟨rfl, hasKey_successDict_error _ _ _ _⟩
  · rw [heq]
    exact Or.inl rfl
